import Mathlib

/-
Shallow embedding of the recipe text-annotation pipeline:
the tools identify_cooking_actions, extract_durations and
generate_video_prompt from src/extractor.py and src/processor.py.

JSON values (the result of json.loads) are modelled by the inductive
type JValue; Python exceptions raised inside the tools' try blocks are
modelled by PyExc, and each tool returns Except String α where the
error carries the message string the Python except-branch would return.
The regular expressions are modelled directly: word-boundary search for
the action vocabulary, and a deterministic matcher for the duration
pattern, following Python's leftmost scan with first-alternative
("minute" before "minutes") alternation semantics.
-/

namespace ChefAI

/-- JSON values, as produced by json.loads. Numbers are modelled as
integers (the recipe fields the core reads are strings and integers). -/
inductive JValue where
  | null
  | bool (b : Bool)
  | num (n : Int)
  | str (s : String)
  | arr (xs : List JValue)
  | obj (fields : List (String × JValue))

/-- The Python type name of a JSON value, used in exception messages. -/
def typeName : JValue → String
  | .null => "NoneType"
  | .bool _ => "bool"
  | .num _ => "int"
  | .str _ => "str"
  | .arr _ => "list"
  | .obj _ => "dict"

/-- Dictionary lookup; with duplicate keys the last binding wins, as in
json.loads. -/
def lookupLast (k : String) : List (String × JValue) → Option JValue
  | [] => none
  | (k', v) :: rest =>
    match lookupLast k rest with
    | some r => some r
    | none => if k' == k then some v else none

/-- The Python exceptions the embedded tools can raise. -/
inductive PyExc where
  | keyError (key : String)
  | typeError (msg : String)
  | attributeError (msg : String)
deriving Repr, DecidableEq

/-- str(e) for an exception: KeyError prints its key quoted, the others
print their message. -/
def PyExc.toMessage : PyExc → String
  | .keyError k => "'" ++ k ++ "'"
  | .typeError m => m
  | .attributeError m => m

/-- Python subscription value[k] for a string key. -/
def pyGetItem (j : JValue) (k : String) : Except PyExc JValue :=
  match j with
  | .obj fs =>
    match lookupLast k fs with
    | some v => .ok v
    | none => .error (.keyError k)
  | .arr _ => .error (.typeError "list indices must be integers or slices, not str")
  | .str _ => .error (.typeError "string indices must be integers")
  | v => .error (.typeError ("'" ++ typeName v ++ "' object is not subscriptable"))

/-- Python iteration: lists yield elements, strings yield one-character
strings, dicts yield their keys; other values raise TypeError. -/
def pyIter (j : JValue) : Except PyExc (List JValue) :=
  match j with
  | .arr xs => .ok xs
  | .str s => .ok (s.data.map fun c => .str (String.singleton c))
  | .obj fs => .ok (fs.map fun p => .str p.1)
  | v => .error (.typeError ("'" ++ typeName v ++ "' object is not iterable"))

/-- A step value as used by identify_cooking_actions: step.lower() is
called on it, so a non-string raises AttributeError. -/
def stepStringAttr (j : JValue) : Except PyExc String :=
  match j with
  | .str s => .ok s
  | v => .error (.attributeError ("'" ++ typeName v ++ "' object has no attribute 'lower'"))

/-- A step value as used by extract_durations: re.finditer requires a
string, so a non-string raises TypeError. -/
def stepStringRe (j : JValue) : Except PyExc String :=
  match j with
  | .str s => .ok s
  | _ => .error (.typeError "expected string or bytes-like object")

/-- Python's str.lower over the characters of a string (ASCII range;
the verbs, units and the examples' text are ASCII apart from the
already-lowercase accented letter, which lower leaves unchanged). -/
def lowerChars (s : List Char) : List Char := s.map Char.toLower

/-- ingredient.get("name", "").lower(): non-dicts have no .get, a
non-string name value has no .lower, a missing name defaults to "". -/
def pyGetNameLower (j : JValue) : Except PyExc String :=
  match j with
  | .obj fs =>
    match lookupLast "name" fs with
    | some (.str s) => .ok (String.mk (lowerChars s.data))
    | some v => .error (.attributeError ("'" ++ typeName v ++ "' object has no attribute 'lower'"))
    | none => .ok ""
  | v => .error (.attributeError ("'" ++ typeName v ++ "' object has no attribute 'get'"))

/-- The steps extraction shared by both identify_cooking_actions
implementations: recipe_json["steps"], iterated, each element used as a
string via .lower(). -/
def getStepsAttr (j : JValue) : Except PyExc (List String) :=
  match pyGetItem j "steps" with
  | .error e => .error e
  | .ok sv =>
    match pyIter sv with
    | .error e => .error e
    | .ok elems => elems.mapM stepStringAttr

/-- The steps extraction shared by both extract_durations
implementations: recipe_json["steps"], iterated, each element used as a
string by re.finditer. -/
def getStepsRe (j : JValue) : Except PyExc (List String) :=
  match pyGetItem j "steps" with
  | .error e => .error e
  | .ok sv =>
    match pyIter sv with
    | .error e => .error e
    | .ok elems => elems.mapM stepStringRe

/-! ### Word-boundary search, modelling re.search of a verb wrapped in
word boundaries. A boundary requires the neighbouring character, when
present, to be a non-word character. The verbs contain only ASCII
letters and the letter following t in the French spelling of saute, so
word characters are modelled as alphanumerics, the underscore and that
letter. -/

def isWordChar (c : Char) : Bool := c.isAlphanum || c == '_' || c == 'é'

def boundaryOk : Option Char → Bool
  | none => true
  | some c => !(isWordChar c)

/-- The verb matches at the head of s and is followed by a boundary. -/
def matchesHere : List Char → List Char → Bool
  | [], [] => true
  | [], c :: _ => !(isWordChar c)
  | _ :: _, [] => false
  | a :: v, b :: s => a == b && matchesHere v s

/-- Search every position of s for a boundary-delimited occurrence of
the verb; prev is the character just before the current position. -/
def searchWordAux (v : List Char) : List Char → Option Char → Bool
  | [], prev => boundaryOk prev && matchesHere v []
  | c :: rest, prev =>
    (boundaryOk prev && matchesHere v (c :: rest)) || searchWordAux v rest (some c)

/-- re.search of a word-boundary-wrapped verb against the lowered
step. -/
def hasWordMatch (verb : String) (step : String) : Bool :=
  searchWordAux verb.data (lowerChars step.data) none

/-- Python's substring operator "in": p occurs contiguously in s; the
empty string occurs in every string. -/
def substrOf (p : List Char) : List Char → Bool
  | [] => p.isEmpty
  | c :: rest => p.isPrefixOf (c :: rest) || substrOf p rest

/-! ### The duration regular expression: an integer, an optional range
tail, optional whitespace, then a unit taken from the alternation
minute, minutes, mins, min, hour, hours, hr, hrs, case-insensitively.
Python tries alternatives left to right and commits to the first that
completes the match, so "minutes" in the text is matched as "minute". -/

/-- One match of the duration pattern:
value is the captured first integer, unit the lowered matched unit
alternative, text the verbatim matched substring (group 0). -/
structure RawMatch where
  value : Nat
  unit : String
  text : String
deriving Repr, DecidableEq

def unitAlternatives : List String := ["minute", "minutes", "mins", "min", "hour", "hours", "hr", "hrs"]

def digitsToNat (ds : List Char) : Nat :=
  ds.foldl (fun n c => n * 10 + (c.toNat - 48)) 0

/-- Case-insensitive prefix test: if s starts with the lowercase
alternative u, return the remainder of s. -/
def ciStripPre (u : List Char) (s : List Char) : Option (List Char) :=
  match u, s with
  | [], rest => some rest
  | _ :: _, [] => none
  | a :: u', b :: s' => if b.toLower == a then ciStripPre u' s' else none

/-- Try the unit alternatives in order; return the first that matches a
prefix of s, with the remainder of s. -/
def findUnit : List String → List Char → Option (String × List Char)
  | [], _ => none
  | u :: rest, s =>
    match ciStripPre u.data s with
    | some r => some (u, r)
    | none => findUnit rest s

/-- Attempt the duration pattern at the head of s, returning the match
and the remainder of s after it. The leading digit run, the optional
range tail and the whitespace runs are consumed greedily; greedy
consumption is exact here because no backtracking alternative of this
pattern can succeed where the greedy reading fails. -/
def matchAt (s : List Char) : Option (RawMatch × List Char) :=
  match s with
  | [] => none
  | c :: _ =>
    if c.isDigit then
      let p1 := s.span Char.isDigit
      let afterRange :=
        let p2 := p1.2.span Char.isWhitespace
        match p2.2 with
        | '-' :: r3 =>
          let p3 := r3.span Char.isWhitespace
          let p4 := p3.2.span Char.isDigit
          if p4.1.isEmpty then p1.2 else p4.2
        | _ => p1.2
      let p5 := afterRange.span Char.isWhitespace
      match findUnit unitAlternatives p5.2 with
      | some (u, rest) =>
        some ({ value := digitsToNat p1.1, unit := u,
                text := String.mk (s.take (s.length - rest.length)) }, rest)
      | none => none
    else none

/-- re.finditer: scan left to right, emitting non-overlapping matches
and resuming after each match; fuel bounds the number of scan steps. -/
def scanAux : Nat → List Char → List RawMatch
  | 0, _ => []
  | _ + 1, [] => []
  | n + 1, c :: rest =>
    match matchAt (c :: rest) with
    | some (m, after) => m :: scanAux n after
    | none => scanAux n rest

def scanMatches (s : List Char) : List RawMatch := scanAux s.length s

/-- The unit conversion of extract_durations: hour-family units are
multiplied by 60. -/
def normalizeDuration (v : Nat) (unit : String) : Nat :=
  if "hour".data.isPrefixOf unit.data || unit == "hr" || unit == "hrs" then v * 60 else v

/-! ### Output value objects -/

structure ActionTag where
  action : String
  step_number : Nat
  full_instruction : String
deriving Repr, DecidableEq

structure DurationTag where
  step_number : Nat
  duration_minutes : Nat
  original_text : String
  full_instruction : String
deriving Repr, DecidableEq

/-! ### src/extractor.py -/

namespace Extractor

/-- The action vocabulary of identify_cooking_actions (26 verbs). -/
def cookingVerbs : List String :=
  ["chop", "dice", "slice", "mince", "grate", "mix", "stir", "beat", "whisk",
   "fold", "bake", "roast", "grill", "boil", "simmer", "fry", "sauté", "steam",
   "poach", "marinate", "season", "sprinkle", "pour", "drizzle", "blend", "puree"]

/-- The enumerate loop of identify_cooking_actions: for the i-th step,
one ActionTag per vocabulary verb found word-boundary-wise in the
lowered step, in vocabulary order; blocks concatenated step by step. -/
def actionTags : Nat → List String → List ActionTag
  | _, [] => []
  | i, s :: rest =>
    (cookingVerbs.filter (fun v => hasWordMatch v s)).map
      (fun v => { action := v, step_number := i + 1, full_instruction := s })
      ++ actionTags (i + 1) rest

/-- The body of identify_cooking_actions' try block, after json.loads. -/
def identifyCore (j : JValue) : Except PyExc (List ActionTag) :=
  match getStepsAttr j with
  | .error e => .error e
  | .ok steps => .ok (actionTags 0 steps)

/-- identify_cooking_actions: any exception is converted to the
tool's error message string. -/
def identify_cooking_actions (j : JValue) : Except String (List ActionTag) :=
  match identifyCore j with
  | .ok tags => .ok tags
  | .error e => .error ("Error identifying cooking actions: " ++ e.toMessage)

/-- The enumerate loop of extract_durations: for the i-th step, one
DurationTag per regex match, left to right, with the unit conversion. -/
def durationTags : Nat → List String → List DurationTag
  | _, [] => []
  | i, s :: rest =>
    (scanMatches s.data).map
      (fun r => { step_number := i + 1,
                  duration_minutes := normalizeDuration r.value r.unit,
                  original_text := r.text, full_instruction := s })
      ++ durationTags (i + 1) rest

/-- The body of extract_durations' try block, after json.loads. -/
def durationsCore (j : JValue) : Except PyExc (List DurationTag) :=
  match getStepsRe j with
  | .error e => .error e
  | .ok steps => .ok (durationTags 0 steps)

/-- extract_durations: any exception is converted to the tool's error
message string. -/
def extract_durations (j : JValue) : Except String (List DurationTag) :=
  match durationsCore j with
  | .ok tags => .ok tags
  | .error e => .error ("Error extracting durations: " ++ e.toMessage)

/-- The action vocabulary of generate_video_prompt: only the first 18
verbs, ending at steam. -/
def cookingVerbsPrompt : List String :=
  ["chop", "dice", "slice", "mince", "grate", "mix", "stir", "beat", "whisk",
   "fold", "bake", "roast", "grill", "boil", "simmer", "fry", "sauté", "steam"]

/-- The main-action loop of generate_video_prompt: the first verb of
its vocabulary that is a plain substring of the lowered step; the
sentinel "cooking" if none is. -/
def mainAction (step : String) : String :=
  match cookingVerbsPrompt.find? (fun v => substrOf v.data (lowerChars step.data)) with
  | some v => v
  | none => "cooking"

/-- The ingredient loop of generate_video_prompt: for each ingredient,
the lowered name (defaulting to "") is kept when it is a substring of
the lowered step. -/
def relevantIngredients : List JValue → String → Except PyExc (List String)
  | [], _ => .ok []
  | ing :: rest, step =>
    match pyGetNameLower ing with
    | .error e => .error e
    | .ok name =>
      match relevantIngredients rest step with
      | .error e => .error e
      | .ok tail =>
        .ok (if substrOf name.data (lowerChars step.data) then name :: tail else tail)

/-- The comma-joined ingredients clause, with its fallback sentinel. -/
def ingredientsList (relevant : List String) : String :=
  if relevant.isEmpty then "all necessary ingredients"
  else String.intercalate ", " relevant

/-- The f-string template of generate_video_prompt, verbatim. -/
def promptTemplate (main step ingList : String) : String :=
  "\n        Create a realistic, top-down view of " ++ main ++ ". \n" ++
  "        Kitchen setting with clean countertop, good lighting. \n" ++
  "        \n" ++
  "        Specifically show: " ++ step ++ "\n" ++
  "        \n" ++
  "        Ingredients visible: " ++ ingList ++ "\n" ++
  "        \n" ++
  "        Style: Professional cooking video, 4K quality, soft natural lighting.\n" ++
  "        "

/-- The ingredient scan of generate_video_prompt: iterate the parsed
ingredients value and collect the matching names. -/
def ingredientHits (step : String) (ingredients : JValue) : Except PyExc (List String) :=
  match pyIter ingredients with
  | .error e => .error e
  | .ok ings => relevantIngredients ings step

/-- The body of generate_video_prompt's try block, after json.loads of
the ingredients argument. -/
def gvpCore (step : String) (ingredients : JValue) : Except PyExc String :=
  match ingredientHits step ingredients with
  | .error e => .error e
  | .ok relevant =>
    .ok (promptTemplate (mainAction step) step (ingredientsList relevant))

/-- generate_video_prompt; step_number is accepted but unused by the
source. Any exception is converted to the tool's error message. -/
def generate_video_prompt (step : String) ( step_number : Nat) (ingredients : JValue) : Except String String :=
  match gvpCore step ingredients with
  | .ok p => .ok p
  | .error e => .error ("Error generating video prompt: " ++ e.toMessage)

end Extractor

/-! ### src/processor.py — the same three tools; the only textual
difference is the style sentence of the prompt template. -/

namespace Processor

/-- The action vocabulary of processor.py's identify_cooking_actions. -/
def cookingVerbs : List String :=
  ["chop", "dice", "slice", "mince", "grate", "mix", "stir", "beat", "whisk",
   "fold", "bake", "roast", "grill", "boil", "simmer", "fry", "sauté", "steam",
   "poach", "marinate", "season", "sprinkle", "pour", "drizzle", "blend", "puree"]

/-- processor.py's enumerate loop for actions. -/
def actionTags : Nat → List String → List ActionTag
  | _, [] => []
  | i, s :: rest =>
    (cookingVerbs.filter (fun v => hasWordMatch v s)).map
      (fun v => { action := v, step_number := i + 1, full_instruction := s })
      ++ actionTags (i + 1) rest

/-- processor.py's identify_cooking_actions try-block body. -/
def identifyCore (j : JValue) : Except PyExc (List ActionTag) :=
  match getStepsAttr j with
  | .error e => .error e
  | .ok steps => .ok (actionTags 0 steps)

/-- processor.py's identify_cooking_actions. -/
def identify_cooking_actions (j : JValue) : Except String (List ActionTag) :=
  match identifyCore j with
  | .ok tags => .ok tags
  | .error e => .error ("Error identifying cooking actions: " ++ e.toMessage)

/-- processor.py's enumerate loop for durations. -/
def durationTags : Nat → List String → List DurationTag
  | _, [] => []
  | i, s :: rest =>
    (scanMatches s.data).map
      (fun r => { step_number := i + 1,
                  duration_minutes := normalizeDuration r.value r.unit,
                  original_text := r.text, full_instruction := s })
      ++ durationTags (i + 1) rest

/-- processor.py's extract_durations try-block body. -/
def durationsCore (j : JValue) : Except PyExc (List DurationTag) :=
  match getStepsRe j with
  | .error e => .error e
  | .ok steps => .ok (durationTags 0 steps)

/-- processor.py's extract_durations. -/
def extract_durations (j : JValue) : Except String (List DurationTag) :=
  match durationsCore j with
  | .ok tags => .ok tags
  | .error e => .error ("Error extracting durations: " ++ e.toMessage)

/-- processor.py's generate_video_prompt vocabulary (18 verbs). -/
def cookingVerbsPrompt : List String :=
  ["chop", "dice", "slice", "mince", "grate", "mix", "stir", "beat", "whisk",
   "fold", "bake", "roast", "grill", "boil", "simmer", "fry", "sauté", "steam"]

/-- processor.py's main-action loop. -/
def mainAction (step : String) : String :=
  match cookingVerbsPrompt.find? (fun v => substrOf v.data (lowerChars step.data)) with
  | some v => v
  | none => "cooking"

/-- processor.py's ingredient loop. -/
def relevantIngredients : List JValue → String → Except PyExc (List String)
  | [], _ => .ok []
  | ing :: rest, step =>
    match pyGetNameLower ing with
    | .error e => .error e
    | .ok name =>
      match relevantIngredients rest step with
      | .error e => .error e
      | .ok tail =>
        .ok (if substrOf name.data (lowerChars step.data) then name :: tail else tail)

/-- processor.py's ingredients clause. -/
def ingredientsList (relevant : List String) : String :=
  if relevant.isEmpty then "all necessary ingredients"
  else String.intercalate ", " relevant

/-- processor.py's f-string template: its style sentence reads
"Professional cooking video with a homely feeling", unlike
extractor.py's. -/
def promptTemplate (main step ingList : String) : String :=
  "\n        Create a realistic, top-down view of " ++ main ++ ". \n" ++
  "        Kitchen setting with clean countertop, good lighting. \n" ++
  "        \n" ++
  "        Specifically show: " ++ step ++ "\n" ++
  "        \n" ++
  "        Ingredients visible: " ++ ingList ++ "\n" ++
  "        \n" ++
  "        Style: Professional cooking video with a homely feeling, 4K quality, soft natural lighting.\n" ++
  "        "

/-- processor.py's ingredient scan. -/
def ingredientHits (step : String) (ingredients : JValue) : Except PyExc (List String) :=
  match pyIter ingredients with
  | .error e => .error e
  | .ok ings => relevantIngredients ings step

/-- processor.py's generate_video_prompt try-block body. -/
def gvpCore (step : String) (ingredients : JValue) : Except PyExc String :=
  match ingredientHits step ingredients with
  | .error e => .error e
  | .ok relevant =>
    .ok (promptTemplate (mainAction step) step (ingredientsList relevant))

/-- processor.py's generate_video_prompt. -/
def generate_video_prompt (step : String) ( step_number : Nat) (ingredients : JValue) : Except String String :=
  match gvpCore step ingredients with
  | .ok p => .ok p
  | .error e => .error ("Error generating video prompt: " ++ e.toMessage)

end Processor

/-! ### The Recipe shape of the specification's data model (section 3),
used to state the claims about structural validity. -/

/-- A spec-shaped Ingredient: an object with quantity (string or
number), unit (string) and name (string). -/
def specValidIngredient (j : JValue) : Bool :=
  match j with
  | .obj fs =>
    (match lookupLast "quantity" fs with
     | some (.str _) => true
     | some (.num _) => true
     | _ => false) &&
    (match lookupLast "unit" fs with | some (.str _) => true | _ => false) &&
    (match lookupLast "name" fs with | some (.str _) => true | _ => false)
  | _ => false

/-- A spec-shaped Recipe: an object with title, description (strings),
servings (integer), ingredients (sequence of Ingredient) and steps
(sequence of string). Stated from the spec's data model, to compare
with what the code actually requires. -/
def specValidRecipe (j : JValue) : Bool :=
  match j with
  | .obj fs =>
    (match lookupLast "title" fs with | some (.str _) => true | _ => false) &&
    (match lookupLast "description" fs with | some (.str _) => true | _ => false) &&
    (match lookupLast "servings" fs with | some (.num _) => true | _ => false) &&
    (match lookupLast "ingredients" fs with
     | some (.arr xs) => xs.all specValidIngredient
     | _ => false) &&
    (match lookupLast "steps" fs with
     | some (.arr xs) => xs.all (fun x => match x with | .str _ => true | _ => false)
     | _ => false)
  | _ => false

/-- The main action prescribed by the specification's Prompt Composer
contract: the first term of the FULL 26-term action vocabulary of
section 4.1 found as a substring of the lowered step. Stated from the
spec's words, to compare with the code's mainAction. -/
def specMainActionFull (step : String) : String :=
  match Extractor.cookingVerbs.find? (fun v => substrOf v.data (lowerChars step.data)) with
  | some v => v
  | none => "cooking"

/-! ## Helper lemmas -/

/-- Every tag of the action loop started at index i carries a 1-based
step number at least i + 1 and an action from the vocabulary. -/
theorem actionTags_mem (ss : List String) :
    ∀ (i : Nat) (t : ActionTag), t ∈ Extractor.actionTags i ss →
      i + 1 ≤ t.step_number ∧ t.action ∈ Extractor.cookingVerbs := by
  induction ss with
  | nil =>
    intro i t ht
    simp [Extractor.actionTags] at ht
  | cons s rest ih =>
    intro i t ht
    simp only [Extractor.actionTags, List.mem_append, List.mem_map] at ht
    rcases ht with ⟨v, hv, rfl⟩ | ht
    · exact ⟨Nat.le_refl _, (List.mem_filter.mp hv).1⟩
    · obtain ⟨h1, h2⟩ := ih (i + 1) t ht
      exact ⟨Nat.le_trans (Nat.le_succ _) h1, h2⟩

/-- A list of naturals all equal to a constant is pairwise monotone. -/
theorem pairwise_le_of_const (l : List Nat) (c : Nat) (h : ∀ x ∈ l, x = c) :
    l.Pairwise (· ≤ ·) := by
  induction l with
  | nil => exact List.Pairwise.nil
  | cons a tl ih =>
    refine List.Pairwise.cons (fun b hb => ?_) (ih fun x hx => h x (by simp [hx]))
    rw [h a (by simp), h b (by simp [hb])]

/-- The action loop emits step numbers in ascending order. -/
theorem actionTags_pairwise (ss : List String) :
    ∀ i : Nat, ((Extractor.actionTags i ss).map ActionTag.step_number).Pairwise (· ≤ ·) := by
  induction ss with
  | nil =>
    intro i
    simp [Extractor.actionTags]
  | cons s rest ih =>
    intro i
    simp only [Extractor.actionTags, List.map_append]
    refine (List.pairwise_append).mpr ⟨?_, ih (i + 1), ?_⟩
    · apply pairwise_le_of_const _ (i + 1)
      intro x hx
      simp only [List.map_map, List.mem_map] at hx
      obtain ⟨v, hv, rfl⟩ := hx
      rfl
    · intro a ha b hb
      simp only [List.map_map, List.mem_map] at ha
      obtain ⟨v, hv, rfl⟩ := ha
      simp only [List.mem_map] at hb
      obtain ⟨t, ht, rfl⟩ := hb
      have hstep := (actionTags_mem rest (i + 1) t ht).1
      show i + 1 ≤ t.step_number
      exact Nat.le_trans (Nat.le_succ _) hstep

/-- Restricted to one step number, the actions of the action loop form
a sublist of the vocabulary: they follow vocabulary iteration order and
mention each verb at most once. -/
theorem actionTags_filter_sublist (ss : List String) :
    ∀ (i n : Nat),
      (((Extractor.actionTags i ss).filter (fun t => t.step_number == n)).map
        ActionTag.action).Sublist Extractor.cookingVerbs := by
  induction ss with
  | nil =>
    intro i n
    simp [Extractor.actionTags]
  | cons s rest ih =>
    intro i n
    simp only [Extractor.actionTags, List.filter_append, List.map_append]
    by_cases hn : n = i + 1
    · subst hn
      have hrest : (Extractor.actionTags (i + 1) rest).filter
          (fun t => t.step_number == i + 1) = [] := by
        rw [List.filter_eq_nil_iff]
        intro t ht
        have := (actionTags_mem rest (i + 1) t ht).1
        simp only [beq_iff_eq]
        omega
      have hblock : ((Extractor.cookingVerbs.filter fun v => hasWordMatch v s).map
            (fun v => ({ action := v, step_number := i + 1, full_instruction := s } : ActionTag))).filter
            (fun t => t.step_number == i + 1)
          = (Extractor.cookingVerbs.filter fun v => hasWordMatch v s).map
            (fun v => ({ action := v, step_number := i + 1, full_instruction := s } : ActionTag)) := by
        rw [List.filter_eq_self]
        intro t ht
        simp only [List.mem_map] at ht
        obtain ⟨v, hv, rfl⟩ := ht
        simp
      rw [hrest, hblock]
      simp only [List.map_map, List.map_nil, List.append_nil]
      have hcomp : (ActionTag.action ∘ fun v =>
          ({ action := v, step_number := i + 1, full_instruction := s } : ActionTag)) = id := rfl
      rw [hcomp, List.map_id]
      exact List.filter_sublist _
    · have hblock : ((Extractor.cookingVerbs.filter fun v => hasWordMatch v s).map
            (fun v => ({ action := v, step_number := i + 1, full_instruction := s } : ActionTag))).filter
            (fun t => t.step_number == n) = [] := by
        rw [List.filter_eq_nil_iff]
        intro t ht
        simp only [List.mem_map] at ht
        obtain ⟨v, hv, rfl⟩ := ht
        simp only [beq_iff_eq]
        omega
      rw [hblock]
      simp only [List.map_nil, List.nil_append]
      exact ih (i + 1) n

/-- A successful identify_cooking_actions result is an action-loop
output starting at index 0. -/
theorem identify_ok_actionTags (j : JValue) (l : List ActionTag)
    (h : Extractor.identify_cooking_actions j = .ok l) :
    ∃ steps, l = Extractor.actionTags 0 steps := by
  unfold Extractor.identify_cooking_actions at h
  cases hc : Extractor.identifyCore j with
  | error e =>
    rw [hc] at h
    simp at h
  | ok tags =>
    rw [hc] at h
    simp only [Except.ok.injEq] at h
    subst h
    unfold Extractor.identifyCore at hc
    split at hc
    · simp at hc
    · rename_i steps heq
      simp only [Except.ok.injEq] at hc
      exact ⟨steps, hc.symm⟩

/-- Every tag of the duration loop comes from a regex match of the
tag's own instruction: the match is in the scan of full_instruction,
its matched text is the tag's original_text, and the tag's minutes are
the unit conversion of that match's captured value. -/
theorem durationTags_mem (ss : List String) :
    ∀ (i : Nat) (t : DurationTag), t ∈ Extractor.durationTags i ss →
      ∃ r : RawMatch, r ∈ scanMatches t.full_instruction.data ∧
        t.original_text = r.text ∧
        t.duration_minutes = normalizeDuration r.value r.unit := by
  induction ss with
  | nil =>
    intro i t ht
    simp [Extractor.durationTags] at ht
  | cons s rest ih =>
    intro i t ht
    simp only [Extractor.durationTags, List.mem_append, List.mem_map] at ht
    rcases ht with ⟨r, hr, rfl⟩ | ht
    · exact ⟨r, hr, rfl, rfl⟩
    · exact ih (i + 1) t ht

/-- A successful extract_durations result is a duration-loop output
starting at index 0. -/
theorem durations_ok_durationTags (j : JValue) (l : List DurationTag)
    (h : Extractor.extract_durations j = .ok l) :
    ∃ steps, l = Extractor.durationTags 0 steps := by
  unfold Extractor.extract_durations at h
  cases hc : Extractor.durationsCore j with
  | error e =>
    rw [hc] at h
    simp at h
  | ok tags =>
    rw [hc] at h
    simp only [Except.ok.injEq] at h
    subst h
    unfold Extractor.durationsCore at hc
    split at hc
    · simp at hc
    · rename_i steps heq
      simp only [Except.ok.injEq] at hc
      exact ⟨steps, hc.symm⟩

/-- The empty character list is a substring of anything, as Python's
"in" holds of the empty string. -/
theorem substrOf_nil (s : List Char) : substrOf [] s = true := by
  cases s with
  | nil => rfl
  | cons c rest => rfl

/-- The two files' action loops are the same function. -/
theorem processorActionTags_eq : Processor.actionTags = Extractor.actionTags := by
  funext i ss
  induction ss generalizing i with
  | nil => rfl
  | cons s rest ih =>
    simp only [Processor.actionTags, Extractor.actionTags, ih]
    rfl

/-- The two files' duration loops are the same function. -/
theorem processorDurationTags_eq : Processor.durationTags = Extractor.durationTags := by
  funext i ss
  induction ss generalizing i with
  | nil => rfl
  | cons s rest ih =>
    simp only [Processor.durationTags, Extractor.durationTags, ih]

/-- The two files' ingredient loops are the same function. -/
theorem processorRelevant_eq : Processor.relevantIngredients = Extractor.relevantIngredients := by
  funext l step
  induction l with
  | nil => rfl
  | cons ing rest ih =>
    simp only [Processor.relevantIngredients, Extractor.relevantIngredients, ih]

/-- The two files' ingredient scans are the same function. -/
theorem processorIngredientHits_eq : Processor.ingredientHits = Extractor.ingredientHits := by
  funext step ing
  unfold Processor.ingredientHits Extractor.ingredientHits
  rw [processorRelevant_eq]

/-- The two files' identify try-block bodies are the same function. -/
theorem processorIdentifyCore_eq : Processor.identifyCore = Extractor.identifyCore := by
  funext j
  unfold Processor.identifyCore Extractor.identifyCore
  rw [processorActionTags_eq]

/-- The two files' durations try-block bodies are the same function. -/
theorem processorDurationsCore_eq : Processor.durationsCore = Extractor.durationsCore := by
  funext j
  unfold Processor.durationsCore Extractor.durationsCore
  rw [processorDurationTags_eq]

/-- find? splits its list at the first satisfying element: either no
element satisfies the predicate, or the list splits as l1 ++ a :: l2
with a the returned element, a satisfying, and all of l1 failing. -/
theorem findFirstSplit {α : Type} (p : α → Bool) (l : List α) :
    (l.find? p = none ∧ ∀ a ∈ l, p a = false) ∨
      ∃ l1 a l2, l = l1 ++ a :: l2 ∧ l.find? p = some a ∧ p a = true ∧
        ∀ b ∈ l1, p b = false := by
  induction l with
  | nil => exact Or.inl ⟨rfl, by simp⟩
  | cons x xs ih =>
    by_cases hx : p x = true
    · exact Or.inr ⟨[], x, xs, rfl, List.find?_cons_of_pos _ hx, hx, by simp⟩
    · have hx' : p x = false := by
        cases hpx : p x
        · rfl
        · exact absurd hpx hx
      rcases ih with ⟨hn, hall⟩ | ⟨l1, a, l2, heq, hfind, hpa, hall⟩
      · refine Or.inl ⟨?_, ?_⟩
        · rw [List.find?_cons_of_neg _ hx]
          exact hn
        · intro b hb
          rcases List.mem_cons.mp hb with rfl | hb'
          · exact hx'
          · exact hall b hb'
      · refine Or.inr ⟨x :: l1, a, l2, by rw [heq, List.cons_append], ?_, hpa, ?_⟩
        · rw [List.find?_cons_of_neg _ hx]
          exact hfind
        · intro b hb
          rcases List.mem_cons.mp hb with rfl | hb'
          · exact hx'
          · exact hall b hb'

/-- The unit conversion yields the captured value or exactly sixty
times it. -/
theorem normalizeDuration_cases (v : Nat) (u : String) :
    normalizeDuration v u = v ∨ normalizeDuration v u = v * 60 := by
  unfold normalizeDuration
  split
  · exact Or.inr rfl
  · exact Or.inl rfl

/-- The unit conversion of a positive captured value is positive. -/
theorem normalizeDuration_pos (v : Nat) (u : String) (h : 0 < v) :
    0 < normalizeDuration v u := by
  unfold normalizeDuration
  split
  · omega
  · omega

/-! ## Claims -/

/-- C1 (amended): if the parsed input object lacks the steps field,
both annotators return an error result naming the missing field and
never a normal result; the rest of the Recipe shape is not checked. -/
theorem c1_missing_steps_error :
    ∀ fs : List (String × JValue),
      lookupLast "steps" fs = none →
      Extractor.identify_cooking_actions (.obj fs) =
          .error "Error identifying cooking actions: 'steps'" ∧
        Extractor.extract_durations (.obj fs) =
          .error "Error extracting durations: 'steps'" := by
  intro fs h
  have hget : pyGetItem (JValue.obj fs) "steps" = .error (.keyError "steps") := by
    simp [pyGetItem, h]
  constructor
  · simp [Extractor.identify_cooking_actions, Extractor.identifyCore, getStepsAttr, hget,
      PyExc.toMessage]
  · simp [Extractor.extract_durations, Extractor.durationsCore, getStepsRe, hget,
      PyExc.toMessage]

/-- Witness for C1's amended theorem at a concrete object without a
steps field. -/
theorem c1_missing_steps_error_witness :
    Extractor.identify_cooking_actions (.obj [("title", .str "Cake")]) =
      .error "Error identifying cooking actions: 'steps'" :=
  (c1_missing_steps_error [("title", .str "Cake")] rfl).1

/-- C1 (counterexample): an object that is not a structurally valid
Recipe (it has only a steps list, no title, description, servings or
ingredients) is processed normally by both annotators, which return
non-error results — refuting the claim that every structurally invalid
input fails. -/
theorem c1_structural_validity_not_required :
    specValidRecipe (.obj [("steps", .arr [.str "Mix well"])]) = false ∧
      Extractor.identify_cooking_actions (.obj [("steps", .arr [.str "Mix well"])]) =
        .ok [⟨"mix", 1, "Mix well"⟩] ∧
      Extractor.extract_durations (.obj [("steps", .arr [.str "Mix well"])]) = .ok [] :=
  ⟨rfl, rfl, rfl⟩

/-- C2 (counterexample): on "poach the egg" the spec's full-vocabulary
scan prescribes main_action "poach", but the code's generate_video_prompt
vocabulary stops at "steam", so the code yields the fallback "cooking". -/
theorem c2_prompt_vocab_truncated :
    specMainActionFull "poach the egg" = "poach" ∧
      Extractor.mainAction "poach the egg" = "cooking" ∧
      ("poach" : String) ≠ "cooking" ∧
      (Extractor.generate_video_prompt "poach the egg" 1 (.arr [])).toOption.getD "" =
        Extractor.promptTemplate "cooking" "poach the egg" "all necessary ingredients" :=
  ⟨rfl, rfl, by decide, rfl⟩

/-- C2 (amended): generate_video_prompt's main_action obeys a
first-match rule over the 18-term prefix of the vocabulary (chop ..
steam; poach, marinate, season, sprinkle, pour, drizzle, blend and
puree are absent): for every step, either no vocabulary term occurs as
a substring of the lowered step and main_action is the fallback
sentinel "cooking", or the vocabulary splits as l1 ++ v :: l2 where v
occurs in the step, no earlier term of l1 occurs, and main_action is
exactly that first occurring term v; the function never fails. -/
theorem c2_main_action_first_18 :
    (∀ step : String,
        ((∀ v ∈ Extractor.cookingVerbsPrompt,
            substrOf v.data (lowerChars step.data) = false) ∧
          Extractor.mainAction step = "cooking") ∨
        (∃ l1 v l2, Extractor.cookingVerbsPrompt = l1 ++ v :: l2 ∧
          Extractor.mainAction step = v ∧
          substrOf v.data (lowerChars step.data) = true ∧
          ∀ w ∈ l1, substrOf w.data (lowerChars step.data) = false)) ∧
      Extractor.cookingVerbsPrompt.length = 18 ∧
      Extractor.mainAction "slice and chop everything" = "chop" ∧
      Extractor.mainAction "poach the egg" = "cooking" := by
  refine ⟨?_, rfl, rfl, rfl⟩
  intro step
  rcases findFirstSplit (fun w => substrOf w.data (lowerChars step.data))
      Extractor.cookingVerbsPrompt with ⟨hn, hall⟩ | ⟨l1, v, l2, heq, hfind, hpv, hall⟩
  · refine Or.inl ⟨hall, ?_⟩
    unfold Extractor.mainAction
    rw [hn]
  · refine Or.inr ⟨l1, v, l2, heq, ?_, hpv, hall⟩
    unfold Extractor.mainAction
    rw [hfind]

/-- Witness for C2's amended theorem at concrete steps: the split
clause instantiated by applying the theorem. -/
theorem c2_main_action_first_18_witness :
    Extractor.mainAction "slice and chop everything" = "chop" ∧
      Extractor.cookingVerbsPrompt.length = 18 :=
  ⟨c2_main_action_first_18.2.2.1, c2_main_action_first_18.2.1⟩

/-- C3 (counterexample): for "Bake for 10-15 minutes and chop the
onions", the single DurationTag has original_text "10-15 minute" — not
"10-15 minutes": the alternation tries "minute" before "minutes" and
commits, so the trailing plural s is outside the match. -/
theorem c3_range_text_counterexample :
    Extractor.extract_durations
        (.obj [("steps", .arr [.str "Bake for 10-15 minutes and chop the onions"])]) =
      .ok [⟨1, 10, "10-15 minute", "Bake for 10-15 minutes and chop the onions"⟩] ∧
      ("10-15 minute" : String) ≠ "10-15 minutes" :=
  ⟨rfl, by decide⟩

/-- C3 (amended): the range step yields exactly one DurationTag with
duration_minutes 10 (the first integer; the upper bound is discarded)
and original_text the verbatim matched substring, which includes the
range upper bound but only the first matching unit alternative — for a
plural "minutes" the match stops at "minute", while "mins" is matched
whole because the alternation lists it before "min". -/
theorem c3_range_first_integer :
    Extractor.extract_durations
        (.obj [("steps", .arr [.str "Bake for 10-15 minutes and chop the onions"])]) =
      .ok [⟨1, 10, "10-15 minute", "Bake for 10-15 minutes and chop the onions"⟩] ∧
      Extractor.extract_durations (.obj [("steps", .arr [.str "Rest for 10-15 mins"])]) =
        .ok [⟨1, 10, "10-15 mins", "Rest for 10-15 mins"⟩] :=
  ⟨rfl, rfl⟩

/-- C4 (counterexample): a step saying "0 minutes" yields a DurationTag
with duration_minutes 0, which is not strictly positive. -/
theorem c4_zero_duration_counterexample :
    Extractor.extract_durations (.obj [("steps", .arr [.str "Wait 0 minutes"])]) =
      .ok [⟨1, 0, "0 minute", "Wait 0 minutes"⟩] ∧ ¬ (0 : Nat) < 0 :=
  ⟨rfl, by decide⟩

/-- C4 (amended): every DurationTag of a successful run arises from a
regex match of the tag's own instruction whose matched text is the
tag's original_text; duration_minutes is the unit conversion of that
match's captured integer — the integer itself or exactly sixty times
it — and is strictly positive whenever that captured integer is
positive (the conversion of any positive value is positive). -/
theorem c4_duration_normalized :
    (∀ (j : JValue) (l : List DurationTag),
        Extractor.extract_durations j = .ok l →
        ∀ t ∈ l, ∃ r : RawMatch,
          r ∈ scanMatches t.full_instruction.data ∧
          t.original_text = r.text ∧
          t.duration_minutes = normalizeDuration r.value r.unit ∧
          (t.duration_minutes = r.value ∨ t.duration_minutes = r.value * 60) ∧
          (0 < r.value → 0 < t.duration_minutes)) ∧
      (∀ (v : Nat) (u : String), 0 < v → 0 < normalizeDuration v u) := by
  constructor
  · intro j l h t ht
    obtain ⟨steps, rfl⟩ := durations_ok_durationTags j l h
    obtain ⟨r, hmem, htext, hval⟩ := durationTags_mem steps 0 t ht
    refine ⟨r, hmem, htext, hval, ?_, ?_⟩
    · rw [hval]
      exact normalizeDuration_cases r.value r.unit
    · intro hv
      rw [hval]
      exact normalizeDuration_pos r.value r.unit hv
  · intro v u hv
    exact normalizeDuration_pos v u hv

/-- Witness for C4's amended theorem: its positivity clause discharged
at a concrete captured value and unit. -/
theorem c4_duration_normalized_witness : 0 < normalizeDuration 2 "hours" :=
  c4_duration_normalized.2 2 "hours" (by decide)

/-- C5 (counterexample): an ingredients list whose element is a dict
without a name field does NOT fail: the name defaults to "", which is a
substring of every step, so the element is silently included and a
prompt is produced. -/
theorem c5_missing_name_counterexample :
    Extractor.generate_video_prompt "Mix the batter" 1 (.arr [.obj []]) =
      .ok (Extractor.promptTemplate "mix" "Mix the batter" "") ∧
      Extractor.relevantIngredients [.obj []] "Mix the batter" = .ok [""] ∧
      (Extractor.generate_video_prompt "Mix the batter" 1 (.arr [.obj []])).isOk = true :=
  ⟨rfl, rfl, rfl⟩

/-- C5 (amended): ingredients inputs that are not iterable, or whose
elements are not dicts, fail with an error result; but dict elements
lacking a name field are accepted — the name defaults to the empty
string, which matches every step. -/
theorem c5_malformed_ingredients :
    (∀ (step : String) (n : Nat) (m : Int),
        Extractor.generate_video_prompt step n (.num m) =
          .error "Error generating video prompt: 'int' object is not iterable") ∧
      (∀ (step : String) (n : Nat),
        Extractor.generate_video_prompt step n (.arr [.num 3]) =
          .error "Error generating video prompt: 'int' object has no attribute 'get'") ∧
      (∀ step : String, substrOf "".data (lowerChars step.data) = true) := by
  refine ⟨?_, ?_, ?_⟩
  · intro step n m
    rfl
  · intro step n
    rfl
  · intro step
    exact substrOf_nil _

/-- C6: on "Bake for 10-15 minutes and chop the onions" the Action
Annotator tags exactly the verbs chop and bake (in vocabulary order),
and matching is whole-word: "chopped onions" yields no tag. -/
theorem c6_action_word_boundary :
    Extractor.identify_cooking_actions
        (.obj [("steps", .arr [.str "Bake for 10-15 minutes and chop the onions"])]) =
      .ok [⟨"chop", 1, "Bake for 10-15 minutes and chop the onions"⟩,
           ⟨"bake", 1, "Bake for 10-15 minutes and chop the onions"⟩] ∧
      Extractor.identify_cooking_actions (.obj [("steps", .arr [.str "chopped onions"])]) =
        .ok [] :=
  ⟨rfl, rfl⟩

/-- C7: every successful Action Annotator output is ordered by
step_number ascending, then vocabulary order within a step (the actions
of one step form a sublist of the vocabulary), and each verb appears at
most once per step. -/
theorem c7_action_order_and_dedup :
    ∀ (j : JValue) (l : List ActionTag),
      Extractor.identify_cooking_actions j = .ok l →
      (l.map ActionTag.step_number).Pairwise (· ≤ ·) ∧
        (∀ n : Nat,
          ((l.filter (fun t => t.step_number == n)).map ActionTag.action).Sublist
            Extractor.cookingVerbs) ∧
        (∀ (n : Nat) (v : String),
          ((l.filter (fun t => t.step_number == n)).map ActionTag.action).count v ≤ 1) := by
  intro j l h
  obtain ⟨steps, rfl⟩ := identify_ok_actionTags j l h
  refine ⟨actionTags_pairwise steps 0, fun n => actionTags_filter_sublist steps 0 n, fun n v => ?_⟩
  have hnd : Extractor.cookingVerbs.Nodup := by decide
  have hsub := actionTags_filter_sublist steps 0 n
  exact List.nodup_iff_count_le_one.mp (hnd.sublist hsub) v

/-- Witness for C7 at the two-verb example recipe. -/
theorem c7_action_order_and_dedup_witness :
    (([⟨"chop", 1, "Bake for 10-15 minutes and chop the onions"⟩,
       ⟨"bake", 1, "Bake for 10-15 minutes and chop the onions"⟩] : List ActionTag).map
        ActionTag.step_number).Pairwise (· ≤ ·) :=
  (c7_action_order_and_dedup
    (.obj [("steps", .arr [.str "Bake for 10-15 minutes and chop the onions"])])
    [⟨"chop", 1, "Bake for 10-15 minutes and chop the onions"⟩,
     ⟨"bake", 1, "Bake for 10-15 minutes and chop the onions"⟩] rfl).1

/-- C8: "Simmer for 2 hours" yields duration_minutes 120, and every
hour-family unit is converted by an exact multiplication by 60. -/
theorem c8_hours_times_sixty :
    Extractor.extract_durations (.obj [("steps", .arr [.str "Simmer for 2 hours"])]) =
      .ok [⟨1, 120, "2 hour", "Simmer for 2 hours"⟩] ∧
      ∀ (v : Nat) (u : String),
        u ∈ (["hour", "hours", "hr", "hrs"] : List String) → normalizeDuration v u = v * 60 := by
  refine ⟨rfl, ?_⟩
  intro v u hu
  fin_cases hu <;> rfl

/-- Witness for C8's conversion clause at a concrete unit. -/
theorem c8_hours_times_sixty_witness : normalizeDuration 2 "hours" = 2 * 60 :=
  c8_hours_times_sixty.2 2 "hours" (by decide)

set_option maxRecDepth 8192 in
/-- C9: ingredients_mentioned is exactly the (lowered) names that occur
case-insensitively in the step, in ingredient-list order; the worked
example yields onion and garlic but not salt; an empty hit list makes
the prompt say "all necessary ingredients". -/
theorem c9_ingredients_mentioned :
    (∀ (names : List String) (step : String),
        Extractor.relevantIngredients (names.map fun nm => .obj [("name", .str nm)]) step =
          .ok ((names.map fun nm => String.mk (lowerChars nm.data)).filter
            fun nm => substrOf nm.data (lowerChars step.data))) ∧
      Extractor.relevantIngredients
          [.obj [("name", .str "onion")], .obj [("name", .str "garlic")],
           .obj [("name", .str "salt")]]
          "Add the sliced onions and chopped garlic to the pan" = .ok ["onion", "garlic"] ∧
      Extractor.ingredientsList [] = "all necessary ingredients" ∧
      substrOf "all necessary ingredients".data
        ((Extractor.generate_video_prompt "Serve immediately" 1 (.arr [])).toOption.getD "").data
        = true := by
  refine ⟨?_, rfl, rfl, by decide⟩
  intro names step
  induction names with
  | nil => rfl
  | cons nm rest ih =>
    rw [List.map_cons, Extractor.relevantIngredients]
    have hname : pyGetNameLower (.obj [("name", .str nm)]) = .ok (String.mk (lowerChars nm.data)) := rfl
    rw [hname, ih]
    rw [List.map_cons, List.filter_cons]

set_option maxRecDepth 8192 in
/-- C10 (counterexample): the two files' generate_video_prompt disagree
on a concrete input — processor.py's prompt carries the extra words
"with a homely feeling" in its style sentence. -/
theorem c10_duplicate_tools_counterexample :
    (Extractor.generate_video_prompt "Chop the onions" 1 (.arr [])).toOption.getD "" ≠
      (Processor.generate_video_prompt "Chop the onions" 1 (.arr [])).toOption.getD "" := by
  decide

/-- C10 (amended): identify_cooking_actions and extract_durations are
extensionally equal across the two files, and the two
generate_video_prompt functions agree on success versus failure for
every input, differing only in the produced prompt text. -/
theorem c10_duplicate_tools_partial_eq :
    Extractor.identify_cooking_actions = Processor.identify_cooking_actions ∧
      Extractor.extract_durations = Processor.extract_durations ∧
      ∀ (step : String) (n : Nat) (ing : JValue),
        (Extractor.generate_video_prompt step n ing).isOk =
          (Processor.generate_video_prompt step n ing).isOk := by
  refine ⟨?_, ?_, ?_⟩
  · funext j
    unfold Extractor.identify_cooking_actions Processor.identify_cooking_actions
    rw [processorIdentifyCore_eq]
  · funext j
    unfold Extractor.extract_durations Processor.extract_durations
    rw [processorDurationsCore_eq]
  · intro step n ing
    have key : (Extractor.gvpCore step ing).isOk = (Processor.gvpCore step ing).isOk := by
      unfold Extractor.gvpCore Processor.gvpCore
      rw [processorIngredientHits_eq]
      cases h : Extractor.ingredientHits step ing with
      | error e => simp [Except.isOk, Except.toBool]
      | ok rel => simp [Except.isOk, Except.toBool]
    unfold Extractor.generate_video_prompt Processor.generate_video_prompt
    cases hE : Extractor.gvpCore step ing with
    | error e =>
      cases hP : Processor.gvpCore step ing with
      | error e2 => simp [Except.isOk, Except.toBool]
      | ok p =>
        rw [hE, hP] at key
        simp [Except.isOk, Except.toBool] at key
    | ok p =>
      cases hP : Processor.gvpCore step ing with
      | error e2 =>
        rw [hE, hP] at key
        simp [Except.isOk, Except.toBool] at key
      | ok p2 => simp [Except.isOk, Except.toBool]

end ChefAI
